import Mathlib

/-!
Shallow embedding of the CO₂ Monitor application (`src/app.py`): the two CSV
fetchers, the derivation arithmetic, the budget lookup, and the refresh
coordinator (worker thread / result queue / poll loop) as an explicit state
machine.  Python floats are modelled as exact rationals (`Rat`); Python
strings as `String` / `List Char`.
-/

set_option maxRecDepth 4000

deriving instance DecidableEq for Except

namespace CO2Monitor

/-! ### Python string primitives

`str.strip`, `str.splitlines`, `str.split(",")`, `int(...)`, `float(...)`
modelled over `List Char`.  `int`/`float` are modelled on plain decimal
notation (optional sign, digits, fraction, exponent), the only forms the
two data sources use; special forms (`inf`, `nan`, underscores, hex) are
out of scope of the model.
-/

/-- `str.strip()`: drop whitespace from both ends. -/
def pyStripChars (cs : List Char) : List Char :=
  ((cs.dropWhile Char.isWhitespace).reverse.dropWhile Char.isWhitespace).reverse

def pyStrip (s : String) : String := ⟨pyStripChars s.data⟩

/-- `str.splitlines()` on `\n`, `\r\n`, `\r`: no trailing empty line for a
trailing terminator, like Python. -/
def pySplitlinesAux : List Char → List Char → List (List Char)
  | [], acc => if acc.isEmpty then [] else [acc.reverse]
  | '\r' :: '\n' :: rest, acc => acc.reverse :: pySplitlinesAux rest []
  | '\r' :: rest, acc => acc.reverse :: pySplitlinesAux rest []
  | '\n' :: rest, acc => acc.reverse :: pySplitlinesAux rest []
  | c :: rest, acc => pySplitlinesAux rest (c :: acc)

def pySplitlines (s : String) : List String :=
  (pySplitlinesAux s.data []).map String.mk

/-- `str.split(",")`. -/
def pySplitOnComma : List Char → List Char → List (List Char)
  | [], acc => [acc.reverse]
  | ',' :: rest, acc => acc.reverse :: pySplitOnComma rest []
  | c :: rest, acc => pySplitOnComma rest (c :: acc)

/-- Value of a non-empty all-digit string. -/
def natOfDigits (ds : List Char) : Nat :=
  ds.foldl (fun n c => 10 * n + (c.toNat - '0'.toNat)) 0

def allDigits (ds : List Char) : Bool := !ds.isEmpty && ds.all Char.isDigit

/-- `int(s)`: strip, optional sign, decimal digits; `none` models `ValueError`. -/
def pyIntChars (cs : List Char) : Option Int :=
  match pyStripChars cs with
  | '+' :: ds => if allDigits ds then some (natOfDigits ds) else none
  | '-' :: ds => if allDigits ds then some (-(natOfDigits ds : Int)) else none
  | ds => if allDigits ds then some (natOfDigits ds) else none

/-- Digits of a mantissa part (may be empty). -/
def digitsOk (ds : List Char) : Bool := ds.all Char.isDigit

/-- `float(s)` as an exact rational: strip, optional sign,
`digits[.digits]` or `.digits`, optional `e/E` exponent. -/
def pyFloatChars (cs : List Char) : Option Rat :=
  let cs := pyStripChars cs
  let (sign, cs) : Rat × List Char :=
    match cs with
    | '+' :: rest => (1, rest)
    | '-' :: rest => (-1, rest)
    | rest => (1, rest)
  let (mantCs, expCs) := cs.span (fun c => !(c == 'e' || c == 'E'))
  let expVal : Option Int :=
    match expCs with
    | [] => some 0
    | _ :: ecs =>
      match ecs with
      | '+' :: ds => if allDigits ds then some (natOfDigits ds) else none
      | '-' :: ds => if allDigits ds then some (-(natOfDigits ds : Int)) else none
      | ds => if allDigits ds then some (natOfDigits ds) else none
  let (intCs, fracCs') := mantCs.span (fun c => !(c == '.'))
  let fracCs := fracCs'.drop 1
  if digitsOk intCs && digitsOk fracCs && !(intCs.isEmpty && fracCs.isEmpty) then
    match expVal with
    | none => none
    | some e =>
      some (sign * (natOfDigits (intCs ++ fracCs) : Rat) / (10 : Rat) ^ fracCs.length
        * (10 : Rat) ^ e)
  else none

example : pyIntChars " 2024 ".data = some 2024 := by decide
example : pyIntChars "20.4".data = none := by decide
example : pyFloatChars "421.53".data = some (42153 / 100) := by with_unfolding_all rfl
example : pyFloatChars "-1.5e2".data = some (-150) := by with_unfolding_all rfl
example : pyFloatChars ".5".data = some (1 / 2) := by with_unfolding_all rfl
example : pyFloatChars "".data = none := by with_unfolding_all rfl
example : pyFloatChars "abc".data = none := by with_unfolding_all rfl
example : pySplitlines "a\n\nb\n" = ["a", "", "b"] := by decide
example : (pySplitOnComma "a, b,".data []).map pyStripChars
    = ["a".data, "b".data, []] := by decide

/-! ### Calendar dates (`datetime.datetime(year, month, day)`)

`datetime(y, m, d)` raises `ValueError` unless `1 ≤ y ≤ 9999`,
`1 ≤ m ≤ 12`, `1 ≤ d ≤ days in that month`; `datetime` objects compare
lexicographically by (year, month, day). -/

structure PyDate where
  year : Int
  month : Int
  day : Int
deriving DecidableEq

def isLeapYear (y : Int) : Bool := y % 4 == 0 && (y % 100 != 0 || y % 400 == 0)

def daysInMonth (y m : Int) : Int :=
  if m == 2 then (if isLeapYear y then 29 else 28)
  else if m == 4 || m == 6 || m == 9 || m == 11 then 30
  else 31

def validDate (y m d : Int) : Bool :=
  1 ≤ y && y ≤ 9999 && 1 ≤ m && m ≤ 12 && 1 ≤ d && d ≤ daysInMonth y m

/-- Strict lexicographic order on dates (Python `datetime` comparison). -/
def PyDate.ltb (a b : PyDate) : Bool :=
  a.year < b.year
    || (a.year == b.year
        && (a.month < b.month || (a.month == b.month && a.day < b.day)))

def PyDate.leb (a b : PyDate) : Bool := a.ltb b || a == b

/-! ### HTTP transport and Python exceptions

`requests.get` either raises a transport exception or yields a response;
`raise_for_status()` raises `HTTPError` for status codes in 400..599.
The transport outcome is an explicit input of the embedded fetchers. -/

inductive HttpResult where
  | failure
  | response (status : Nat) (text : String)
deriving DecidableEq

/-- The exceptions the embedded code can raise. -/
inductive PyErr where
  /-- transport failure inside `requests.get` -/
  | requestError
  /-- `r.raise_for_status()` on a 4xx/5xx response -/
  | httpError (status : Nat)
  /-- `datetime(year, month, day)` on an invalid calendar date -/
  | valueError (y m d : Int)
  /-- `RuntimeError(msg)` -/
  | runtimeError (msg : String)
deriving DecidableEq

def _http_get_text (r : HttpResult) : Except PyErr String :=
  match r with
  | .failure => .error .requestError
  | .response status text =>
    if 400 ≤ status ∧ status < 600 then .error (.httpError status) else .ok text

/-! ### NOAA daily concentration fetcher (`fetch_latest_noaa_daily_ppm`) -/

structure Co2Snapshot where
  date : PyDate
  ppm : Rat
deriving DecidableEq

/-- One iteration of the parsing loop in `fetch_latest_noaa_daily_ppm`, up to
the filters: strip; skip empty lines and lines starting with `#`; split on
commas and strip the parts; skip if fewer than 5 parts; parse
`(year, month, day, avg)` from columns 0, 1, 2, 4, skipping on `ValueError`;
skip if `avg ≤ 0`. -/
def parseNoaaLine (rawLine : String) : Option (Int × Int × Int × Rat) :=
  let line := pyStripChars rawLine.data
  if line.isEmpty then none
  else if line.head? = some '#' then none
  else
    match (pySplitOnComma line []).map pyStripChars with
    | p0 :: p1 :: p2 :: _p3 :: p4 :: _ =>
      match pyIntChars p0, pyIntChars p1, pyIntChars p2, pyFloatChars p4 with
      | some year, some month, some day, some avg =>
        if avg ≤ 0 then none else some (year, month, day, avg)
      | _, _, _, _ => none
    | _ => none

/-- The accumulation loop, one line at a time: each surviving row is turned
into `(datetime(year, month, day), avg)`; the `datetime` constructor sits
outside the `try`/`except ValueError` around the numeric parses, so an
invalid calendar date aborts the whole loop with an uncaught `ValueError`
(modelled by the error-absorbing accumulator). -/
def noaaStep (acc : Except PyErr (List (PyDate × Rat))) (line : String) :
    Except PyErr (List (PyDate × Rat)) :=
  match acc with
  | .error e => .error e
  | .ok rows =>
    match parseNoaaLine line with
    | none => .ok rows
    | some (year, month, day, avg) =>
      if validDate year month day then
        .ok (rows ++ [(⟨year, month, day⟩, avg)])
      else .error (.valueError year month day)

def noaaRows (lines : List String) : Except PyErr (List (PyDate × Rat)) :=
  lines.foldl noaaStep (.ok [])

/-- `max(rows, key=lambda x: x[0])`: first element with maximal key. -/
def pyMaxByDate (first : PyDate × Rat) (rest : List (PyDate × Rat)) : PyDate × Rat :=
  rest.foldl (fun best x => if best.1.ltb x.1 then x else best) first

def NOAA_EMPTY_MSG : String := "No valid rows found in NOAA daily CO₂ file."

/-- Body of `fetch_latest_noaa_daily_ppm` after `_http_get_text` returned. -/
def fetch_latest_noaa_from_text (text : String) : Except PyErr Co2Snapshot :=
  match noaaRows (pySplitlines text) with
  | .error e => .error e
  | .ok [] => .error (.runtimeError NOAA_EMPTY_MSG)
  | .ok (r :: rs) =>
    let m := pyMaxByDate r rs
    .ok ⟨m.1, m.2⟩

def fetch_latest_noaa_daily_ppm (http : HttpResult) : Except PyErr Co2Snapshot :=
  match _http_get_text http with
  | .error e => .error e
  | .ok text => fetch_latest_noaa_from_text text

example :
    fetch_latest_noaa_daily_ppm
      (.response 200 "# comment\n2024,1,4,2024.01,421.5\n2024,1,5,2024.02,420.8\nbad,row\n")
      = .ok ⟨⟨2024, 1, 5⟩, 2104 / 5⟩ := by with_unfolding_all rfl

example :
    fetch_latest_noaa_daily_ppm (.response 200 "# only comments\n\n")
      = .error (.runtimeError NOAA_EMPTY_MSG) := by with_unfolding_all rfl

example :
    fetch_latest_noaa_daily_ppm (.response 404 "whatever")
      = .error (.httpError 404) := by with_unfolding_all rfl

/-! ### OWID world emissions fetcher (`fetch_world_emissions_owid`)

`csv.DictReader` (standard library) is modelled for unquoted fields: the
first line gives the field names, each later non-blank line is zipped with
them into an association list.  A row shorter than the header leaves the
trailing keys absent; in Python those keys map to `None`, and every use
site below treats an absent key and a `None` value identically
(`row.get(k)` falsy, `int(row[k])` raising a caught exception). -/

abbrev OwidRow := List (String × String)

/-- `row.get(k)` / `row[k]` (first binding wins; `DictReader` rows have
distinct keys). -/
def rowGet (row : OwidRow) (k : String) : Option String := List.lookup k row

/-- `Modelled: csv.DictReader(io.StringIO(text))` for inputs without quoted
fields: header line, then one record per non-blank line, zipped with the
header. -/
def csvDictReader (text : String) : List OwidRow :=
  match pySplitlines text with
  | [] => []
  | header :: rest =>
    let fields := (pySplitOnComma header.data []).map String.mk
    (rest.filter (fun l => !(l == ""))).map
      (fun line => fields.zip ((pySplitOnComma line.data []).map String.mk))

/-- One iteration of the row loop in `fetch_world_emissions_owid`:
skip unless `country == "World"`; parse `year`, skipping on any exception;
skip years outside `[start_year, end_year]`; skip falsy (missing or empty)
`co2`; parse `co2`, skipping on `ValueError`; convert Mt → Gt by `/ 1000`. -/
def parseOwidRow (start_year end_year : Int) (row : OwidRow) : Option (Int × Rat) :=
  if rowGet row "country" ≠ some "World" then none
  else
    match (rowGet row "year").bind (fun s => pyIntChars s.data) with
    | none => none
    | some year =>
      if year < start_year ∨ year > end_year then none
      else
        match rowGet row "co2" with
        | none => none
        | some co2_mt =>
          if co2_mt = "" then none
          else
            match pyFloatChars co2_mt.data with
            | none => none
            | some co2_mt_f => some (year, co2_mt_f / 1000)

/-- Sort key of `out.sort(key=lambda x: x[0])`. -/
def leYear (a b : Int × Rat) : Prop := a.1 ≤ b.1

instance : DecidableRel leYear := fun a b => Int.decLe a.1 b.1

/-- The filtered, converted rows before sorting. -/
def owidFiltered (rows : List OwidRow) (start_year end_year : Int) : List (Int × Rat) :=
  rows.filterMap (parseOwidRow start_year end_year)

/-- Loop plus `out.sort(key=lambda x: x[0])`; Python `list.sort` is a stable
ascending sort, realised here by `List.insertionSort` (stable). -/
def fetch_world_emissions_rows (rows : List OwidRow) (start_year end_year : Int) :
    List (Int × Rat) :=
  (owidFiltered rows start_year end_year).insertionSort leYear

def fetch_world_emissions_owid (http : HttpResult) (start_year end_year : Int) :
    Except PyErr (List (Int × Rat)) :=
  match _http_get_text http with
  | .error e => .error e
  | .ok text => .ok (fetch_world_emissions_rows (csvDictReader text) start_year end_year)

example :
    fetch_world_emissions_owid
      (.response 200 "country,year,co2\nWorld,2021,34000\nFrance,2021,300\nWorld,2020,32000\nWorld,abc,1\nWorld,2022,\n")
      2020 2024
      = .ok [(2020, 32), (2021, 34)] := by with_unfolding_all rfl

example :
    fetch_world_emissions_owid .failure 2020 2024 = .error .requestError := by
  with_unfolding_all rfl

/-! ### Constants, derivations, budget table -/

def PPM_TO_GTCO2_IN_ATMOSPHERE : Rat := 7.80432
def PREINDUSTRIAL_PPM : Rat := 280.0

/-- `BUDGETS_GTCO2`, an insertion-ordered `dict` as an association list. -/
def BUDGETS_GTCO2 : List (String × Rat) :=
  [("1.5°C budget (50% chance) ~580 GtCO₂", 580.0),
   ("1.5°C budget (66% chance) ~420 GtCO₂", 420.0)]

def gtco2_in_atmosphere_from_ppm (ppm : Rat) : Rat :=
  ppm * PPM_TO_GTCO2_IN_ATMOSPHERE

/-- `BUDGETS_GTCO2.get(budget_label, list(BUDGETS_GTCO2.values())[0])`. -/
def budgetsGet (budget_label : String) : Rat :=
  match List.lookup budget_label BUDGETS_GTCO2 with
  | some v => v
  | none => (BUDGETS_GTCO2.map Prod.snd).headD 0

/-! ### Refresh coordinator: worker, queue messages, UI state, poll loop -/

/-- The tuples placed on `self._q`. -/
inductive Msg where
  | ok (snap : Co2Snapshot) (emissions : List (Int × Rat))
      (start_year end_year : Int) (budget_label : String)
  | err (tb : String)
deriving DecidableEq

/-- `traceback.format_exc()`, abstracted per exception kind. -/
def format_exc : PyErr → String
  | .requestError => "requests.exceptions.RequestException"
  | .httpError status => "requests.exceptions.HTTPError: " ++ toString status
  | .valueError .. => "ValueError: invalid date passed to datetime"
  | .runtimeError msg => "RuntimeError: " ++ msg

/-- `_refresh_worker`: runs the two fetches in order (the second only if the
first succeeded), and returns the messages it puts on the queue — one `ok`
tuple on success, one `err` traceback on any exception. -/
def _refresh_worker (start_year end_year : Int) (budget_label : String)
    (noaaHttp owidHttp : HttpResult) : List Msg :=
  match fetch_latest_noaa_daily_ppm noaaHttp with
  | .error e => [.err (format_exc e)]
  | .ok snap =>
    match fetch_world_emissions_owid owidHttp start_year end_year with
    | .error e => [.err (format_exc e)]
    | .ok emissions => [.ok snap emissions start_year end_year budget_label]

/-- The numeric contents of the five metric cards (`self.cards`); the
f-string formatting and the sub-text labels are abstracted away, `none`
is the initial `—` placeholder. -/
structure Cards where
  latest_ppm : Option Rat
  atmosphere : Option Rat
  above_pre : Option Rat
  budget_used : Option Rat
  budget_remaining : Option Rat
deriving DecidableEq

/-- `_set_card(title, main, sub)`: updates the card registered under
`title`, leaving the rest alone. -/
def _set_card (c : Cards) (title : String) (v : Rat) : Cards :=
  if title = "Latest CO₂ (ppm)" then { c with latest_ppm := some v }
  else if title = "CO₂ in atmosphere (GtCO₂)" then { c with atmosphere := some v }
  else if title = "Above pre-industrial (ppm)" then { c with above_pre := some v }
  else if title = "Estimated budget used (GtCO₂)" then { c with budget_used := some v }
  else if title = "Estimated budget remaining (GtCO₂)" then
    { c with budget_remaining := some v }
  else c

/-- The captured arguments of a spawned worker thread. -/
structure RefreshRequest where
  start_year : Int
  end_year : Int
  budget_label : String
deriving DecidableEq

/-- Observable state of `App`: presentation fields, the result queue, the
in-flight flag, and the spawned-but-unfinished worker threads. -/
structure AppState where
  last_snapshot : Option Co2Snapshot
  cards : Cards
  status : String
  /-- arguments of `messagebox.showerror` calls, in order -/
  dialogs : List String
  refresh_btn_enabled : Bool
  q : List Msg
  refresh_in_flight : Bool
  workers : List RefreshRequest
deriving DecidableEq

def initState : AppState :=
  { last_snapshot := none
    cards := ⟨none, none, none, none, none⟩
    status := "Ready"
    dialogs := []
    refresh_btn_enabled := true
    q := []
    refresh_in_flight := false
    workers := [] }

/-- `_parse_start_year_main_thread`: `int` of the stripped raw text (2020 on
`ValueError`), clamped to `[1990, nowy]`. -/
def _parse_start_year_main_thread (raw : String) (nowy : Int) : Int :=
  let y := (pyIntChars (pyStripChars raw.data)).getD 2020
  let y := if y < 1990 then 1990 else y
  if y > nowy then nowy else y

/-- `refresh_async`: returns unchanged while a refresh is in flight;
otherwise sets the flag, disables the button, captures the request from the
current configuration, sets the status and spawns a worker. -/
def refresh_async (s : AppState) (raw_start_year budget_choice : String)
    (nowy : Int) : AppState :=
  if s.refresh_in_flight then s
  else
    { s with
      refresh_in_flight := true
      refresh_btn_enabled := false
      status := "Refreshing…"
      workers := s.workers ++
        [⟨_parse_start_year_main_thread raw_start_year nowy, nowy, budget_choice⟩] }

/-- A spawned worker finishes: it leaves the worker pool and appends its
messages (see `_refresh_worker`) to the queue.  It touches nothing else —
in particular not the in-flight flag. -/
def worker_finish (s : AppState) (noaaHttp owidHttp : HttpResult) : AppState :=
  match s.workers with
  | [] => s
  | w :: ws =>
    { s with
      workers := ws
      q := s.q ++ _refresh_worker w.start_year w.end_year w.budget_label noaaHttp owidHttp }

/-- `App.render`: computes the five metrics from the snapshot, the emissions
series and the captured request, and writes each onto its card. -/
def render (s : AppState) (snap : Co2Snapshot) (emissions : List (Int × Rat))
    (_start_year _end_year : Int) (budget_label : String) : AppState :=
  let ppm := snap.ppm
  let gt_atm := gtco2_in_atmosphere_from_ppm ppm
  let above_pre := ppm - PREINDUSTRIAL_PPM
  let budget_gt := budgetsGet budget_label
  let used_gt := if emissions ≠ [] then (emissions.map Prod.snd).sum else 0
  let remaining_gt := budget_gt - used_gt
  let c := s.cards
  let c := _set_card c "Latest CO₂ (ppm)" ppm
  let c := _set_card c "CO₂ in atmosphere (GtCO₂)" gt_atm
  let c := _set_card c "Above pre-industrial (ppm)" above_pre
  let c := _set_card c "Estimated budget used (GtCO₂)" used_gt
  let c := _set_card c "Estimated budget remaining (GtCO₂)" remaining_gt
  { s with cards := c }

/-- `_poll_queue`: with an empty queue it only re-arms the timer; otherwise
it drains one message, on `ok` stores the snapshot, renders and stamps the
status, on `err` sets the status to `Error` and shows the dialog; in both
cases it then clears the in-flight flag and re-enables the button. -/
def _poll_queue (s : AppState) (now_str : String) : AppState :=
  match s.q with
  | [] => s
  | msg :: rest =>
    let s := { s with q := rest }
    let s :=
      match msg with
      | .ok snap emissions start_year end_year budget_label =>
        let s := { s with last_snapshot := some snap }
        let s := render s snap emissions start_year end_year budget_label
        { s with status := "Updated " ++ now_str }
      | .err tb =>
        { s with status := "Error", dialogs := s.dialogs ++ [tb] }
    { s with refresh_in_flight := false, refresh_btn_enabled := true }

/-- The events the application reacts to. -/
inductive Event where
  /-- the Refresh button (or the initial load) fires `refresh_async`, with
  the current contents of the two Tk variables and the current year -/
  | trigger (raw_start_year budget_choice : String) (nowy : Int)
  /-- a worker thread finishes, its two HTTP calls having had these
  outcomes -/
  | workerFinish (noaaHttp owidHttp : HttpResult)
  /-- the 100 ms timer fires `_poll_queue` -/
  | poll (now_str : String)

def step (s : AppState) : Event → AppState
  | .trigger raw bc nowy => refresh_async s raw bc nowy
  | .workerFinish h1 h2 => worker_finish s h1 h2
  | .poll now_str => _poll_queue s now_str

/-- States the application can actually be in. -/
inductive Reachable : AppState → Prop where
  | init : Reachable initState
  | next : ∀ s e, Reachable s → Reachable (step s e)

/-! ### Helper lemmas: the coordinator invariant -/

theorem refresh_worker_length (start_year end_year : Int) (budget_label : String)
    (noaaHttp owidHttp : HttpResult) :
    (_refresh_worker start_year end_year budget_label noaaHttp owidHttp).length = 1 := by
  unfold _refresh_worker
  cases fetch_latest_noaa_daily_ppm noaaHttp with
  | error e => rfl
  | ok snap =>
    cases fetch_world_emissions_owid owidHttp start_year end_year with
    | error e => rfl
    | ok emissions => rfl

/-- The single-flight invariant: at most one worker-or-result exists at a
time, and none while idle. -/
def SingleFlight (s : AppState) : Prop :=
  s.workers.length + s.q.length ≤ 1 ∧
  (s.refresh_in_flight = false → s.workers = [] ∧ s.q = [])

theorem singleFlight_init : SingleFlight initState := by
  constructor <;> simp [initState]

theorem singleFlight_step (s : AppState) (e : Event) (h : SingleFlight s) :
    SingleFlight (step s e) := by
  obtain ⟨hlen, hidle⟩ := h
  cases e with
  | trigger raw bc nowy =>
    by_cases hf : s.refresh_in_flight
    · simp [step, refresh_async, hf]
      exact ⟨hlen, fun hcon => absurd hcon (by simp [hf])⟩
    · have h0 := hidle (by simpa using hf)
      simp [step, refresh_async, hf, SingleFlight, h0.1, h0.2]
  | workerFinish h1 h2 =>
    cases hw : s.workers with
    | nil => simpa [step, worker_finish, hw] using ⟨hlen, hidle⟩
    | cons w ws =>
      rw [hw] at hlen
      have hws : ws = [] ∧ s.q = [] := by
        constructor
        · cases ws with
          | nil => rfl
          | cons _ _ => simp at hlen; omega
        · cases hq : s.q with
          | nil => rfl
          | cons _ _ => rw [hq] at hlen; simp at hlen; omega
      refine ⟨?_, ?_⟩
      · simp [step, worker_finish, hw, hws.1, hws.2, refresh_worker_length]
      · intro hflag
        simp [step, worker_finish, hw] at hflag
        have := hidle hflag
        rw [hw] at this
        exact absurd this.1 (by simp)
  | poll now_str =>
    cases hq : s.q with
    | nil => simpa [step, _poll_queue, hq] using ⟨hlen, hidle⟩
    | cons msg rest =>
      rw [hq] at hlen
      have hw : s.workers = [] := by
        cases hww : s.workers with
        | nil => rfl
        | cons _ _ => rw [hww] at hlen; simp at hlen; omega
      have hrest : rest = [] := by
        cases hr : rest with
        | nil => rfl
        | cons _ _ => rw [hr] at hlen; simp at hlen; omega
      cases msg with
      | ok snap emissions sy ey lbl =>
        refine ⟨?_, fun _ => ⟨?_, ?_⟩⟩ <;>
          simp [step, _poll_queue, hq, render, hw, hrest]
      | err tb =>
        refine ⟨?_, fun _ => ⟨?_, ?_⟩⟩ <;>
          simp [step, _poll_queue, hq, hw, hrest]

theorem reachable_singleFlight (s : AppState) (h : Reachable s) : SingleFlight s := by
  induction h with
  | init => exact singleFlight_init
  | next s e _ ih => exact singleFlight_step s e ih

/-! ### Claim theorems -/

/-- C1: a refresh trigger arriving while a refresh is in flight leaves the
state unchanged; a finishing worker never clears the in-flight flag; the
flag is cleared exactly by a poll step that drains a message from the
queue; and in every reachable state there is at most one live worker and
at most one undelivered result in total. -/
theorem C1_single_flight_serialization :
    (∀ (s : AppState) (raw bc : String) (nowy : Int),
      s.refresh_in_flight = true → step s (.trigger raw bc nowy) = s) ∧
    (∀ (s : AppState) (h1 h2 : HttpResult),
      (step s (.workerFinish h1 h2)).refresh_in_flight = s.refresh_in_flight) ∧
    (∀ (s : AppState) (e : Event),
      s.refresh_in_flight = true → (step s e).refresh_in_flight = false →
      ∃ now_str, e = .poll now_str ∧ s.q ≠ []) ∧
    (∀ s : AppState, Reachable s → s.workers.length + s.q.length ≤ 1) := by
  refine ⟨?_, ?_, ?_, ?_⟩
  · intro s raw bc nowy hf
    simp [step, refresh_async, hf]
  · intro s h1 h2
    cases hw : s.workers <;> simp [step, worker_finish, hw]
  · intro s e hf hf'
    cases e with
    | trigger raw bc nowy =>
      rw [show step s (.trigger raw bc nowy) = s by simp [step, refresh_async, hf]] at hf'
      rw [hf] at hf'; cases hf'
    | workerFinish h1 h2 =>
      cases hw : s.workers with
      | nil => rw [show step s (.workerFinish h1 h2) = s by simp [step, worker_finish, hw]] at hf'
               rw [hf] at hf'; cases hf'
      | cons w ws => simp [step, worker_finish, hw] at hf'
                     rw [hf] at hf'; cases hf'
    | poll now_str =>
      cases hq : s.q with
      | nil => rw [show step s (.poll now_str) = s by simp [step, _poll_queue, hq]] at hf'
               rw [hf] at hf'; cases hf'
      | cons msg rest => exact ⟨now_str, rfl, by simp [hq]⟩
  · intro s hs
    exact (reachable_singleFlight s hs).1

/-- Witness for C1: after the initial trigger the coordinator is in flight,
a second trigger is a no-op, a poll after a failing worker is the step that
resets the flag, and the reachable bound holds at a concrete state. -/
theorem C1_single_flight_serialization_witness :
    (step (step initState (.trigger "2020" "b" 2025)) (.trigger "1999" "c" 2025)
        = step initState (.trigger "2020" "b" 2025)) ∧
    (∃ now_str, (Event.poll "10:00" : Event) = .poll now_str ∧
        (step (step initState (.trigger "2020" "b" 2025))
          (.workerFinish .failure .failure)).q ≠ []) ∧
    ((step initState (.trigger "2020" "b" 2025)).workers.length
        + (step initState (.trigger "2020" "b" 2025)).q.length ≤ 1) :=
  ⟨C1_single_flight_serialization.1 _ "1999" "c" 2025 (by with_unfolding_all rfl),
   C1_single_flight_serialization.2.2.1 _ (.poll "10:00")
     (by with_unfolding_all rfl) (by with_unfolding_all rfl),
   C1_single_flight_serialization.2.2.2 _
     (Reachable.next _ _ Reachable.init)⟩

/-- C2: an accepted refresh places exactly one message on the queue — the
`ok` tuple with both datasets and the captured request when both fetches
succeed, and one `err` traceback when either fetch raises. -/
theorem C2_worker_exactly_one_result :
    ∀ (start_year end_year : Int) (budget_label : String)
      (noaaHttp owidHttp : HttpResult),
    (_refresh_worker start_year end_year budget_label noaaHttp owidHttp).length = 1 ∧
    (∀ snap emissions,
      fetch_latest_noaa_daily_ppm noaaHttp = .ok snap →
      fetch_world_emissions_owid owidHttp start_year end_year = .ok emissions →
      _refresh_worker start_year end_year budget_label noaaHttp owidHttp
        = [.ok snap emissions start_year end_year budget_label]) ∧
    (∀ e, fetch_latest_noaa_daily_ppm noaaHttp = .error e →
      _refresh_worker start_year end_year budget_label noaaHttp owidHttp
        = [.err (format_exc e)]) ∧
    (∀ snap e,
      fetch_latest_noaa_daily_ppm noaaHttp = .ok snap →
      fetch_world_emissions_owid owidHttp start_year end_year = .error e →
      _refresh_worker start_year end_year budget_label noaaHttp owidHttp
        = [.err (format_exc e)]) := by
  intro start_year end_year budget_label noaaHttp owidHttp
  refine ⟨refresh_worker_length _ _ _ _ _, ?_, ?_, ?_⟩
  · intro snap emissions hn ho
    unfold _refresh_worker
    rw [hn, ho]
  · intro e hn
    unfold _refresh_worker
    rw [hn]
  · intro snap e hn ho
    unfold _refresh_worker
    rw [hn, ho]

/-- Witness for C2 at concrete fixtures: a successful pair of fetches yields
the single `ok` tuple, and a transport failure yields the single `err`. -/
theorem C2_worker_exactly_one_result_witness :
    _refresh_worker 2020 2025 "b"
        (.response 200 "2024,1,5,2024.01,421.5\n")
        (.response 200 "country,year,co2\nWorld,2021,34000\n")
      = [.ok ⟨⟨2024, 1, 5⟩, 843 / 2⟩ [(2021, 34)] 2020 2025 "b"] ∧
    _refresh_worker 2020 2025 "b" .failure .failure
      = [.err (format_exc .requestError)] :=
  ⟨(C2_worker_exactly_one_result 2020 2025 "b" _ _).2.1 _ _
      (by with_unfolding_all rfl) (by with_unfolding_all rfl),
   (C2_worker_exactly_one_result 2020 2025 "b" _ _).2.2.1 _
      (by with_unfolding_all rfl)⟩

/-! ### Render helper lemmas -/

theorem set_card_ppm (c : Cards) (v : Rat) :
    _set_card c "Latest CO₂ (ppm)" v = { c with latest_ppm := some v } := by
  simp [_set_card]

theorem set_card_atm (c : Cards) (v : Rat) :
    _set_card c "CO₂ in atmosphere (GtCO₂)" v = { c with atmosphere := some v } := by
  simp [_set_card]

theorem set_card_above (c : Cards) (v : Rat) :
    _set_card c "Above pre-industrial (ppm)" v = { c with above_pre := some v } := by
  simp [_set_card]

theorem set_card_used (c : Cards) (v : Rat) :
    _set_card c "Estimated budget used (GtCO₂)" v = { c with budget_used := some v } := by
  simp [_set_card]

theorem set_card_remaining (c : Cards) (v : Rat) :
    _set_card c "Estimated budget remaining (GtCO₂)" v
      = { c with budget_remaining := some v } := by
  simp [_set_card]

/-- The five cards after a render, in closed form. -/
theorem render_cards (s : AppState) (snap : Co2Snapshot) (emissions : List (Int × Rat))
    (start_year end_year : Int) (budget_label : String) :
    (render s snap emissions start_year end_year budget_label).cards =
      { latest_ppm := some snap.ppm
        atmosphere := some (gtco2_in_atmosphere_from_ppm snap.ppm)
        above_pre := some (snap.ppm - PREINDUSTRIAL_PPM)
        budget_used := some (if emissions ≠ [] then (emissions.map Prod.snd).sum else 0)
        budget_remaining := some (budgetsGet budget_label -
          (if emissions ≠ [] then (emissions.map Prod.snd).sum else 0)) } := by
  simp [render, set_card_ppm, set_card_atm, set_card_above, set_card_used,
    set_card_remaining]

theorem ite_sum_emissions (emissions : List (Int × Rat)) :
    (if emissions ≠ [] then (emissions.map Prod.snd).sum else 0)
      = (emissions.map Prod.snd).sum := by
  cases emissions <;> simp

/-- C6: when the drained message is a failure, the cards and the stored
snapshot are untouched — only the status line and the error dialog change;
the cards change only when the drained message is a success; and a success
message exists on the queue only if both fetches succeeded. -/
theorem C6_no_partial_render :
    ∀ (s : AppState) (now_str : String),
    (∀ tb rest, s.q = .err tb :: rest →
      (_poll_queue s now_str).cards = s.cards ∧
      (_poll_queue s now_str).last_snapshot = s.last_snapshot ∧
      (_poll_queue s now_str).status = "Error" ∧
      (_poll_queue s now_str).dialogs = s.dialogs ++ [tb]) ∧
    ((_poll_queue s now_str).cards ≠ s.cards →
      ∃ snap emissions start_year end_year budget_label rest,
        s.q = .ok snap emissions start_year end_year budget_label :: rest) ∧
    (∀ (start_year end_year : Int) (budget_label : String)
        (noaaHttp owidHttp : HttpResult) snap emissions sy ey lbl,
      Msg.ok snap emissions sy ey lbl
          ∈ _refresh_worker start_year end_year budget_label noaaHttp owidHttp →
      fetch_latest_noaa_daily_ppm noaaHttp = .ok snap ∧
      fetch_world_emissions_owid owidHttp start_year end_year = .ok emissions) := by
  intro s now_str
  refine ⟨?_, ?_, ?_⟩
  · intro tb rest hq
    simp [_poll_queue, hq]
  · intro hcards
    cases hq : s.q with
    | nil => exact absurd (by simp [_poll_queue, hq]) hcards
    | cons msg rest =>
      cases msg with
      | ok snap emissions sy ey lbl => exact ⟨snap, emissions, sy, ey, lbl, rest, rfl⟩
      | err tb => exact absurd (by simp [_poll_queue, hq]) hcards
  · intro sy0 ey0 lbl0 noaaHttp owidHttp snap emissions sy ey lbl hmem
    unfold _refresh_worker at hmem
    cases hn : fetch_latest_noaa_daily_ppm noaaHttp with
    | error e => rw [hn] at hmem; simp at hmem
    | ok snap' =>
      rw [hn] at hmem
      cases ho : fetch_world_emissions_owid owidHttp sy0 ey0 with
      | error e => rw [ho] at hmem; simp at hmem
      | ok emissions' =>
        rw [ho] at hmem
        simp at hmem
        obtain ⟨h1, h2, _, _, _⟩ := hmem
        subst h1; subst h2
        exact ⟨rfl, rfl⟩

/-- Witness for C6 at a concrete failing state: a state with an `err`
message at the head of its queue keeps its cards and snapshot. -/
theorem C6_no_partial_render_witness :
    (_poll_queue
        { initState with q := [.err "boom"], refresh_in_flight := true } "10:00").cards
      = ({ initState with q := [.err "boom"], refresh_in_flight := true } : AppState).cards ∧
    fetch_latest_noaa_daily_ppm (.response 200 "2024,1,5,2024.01,421.5\n")
      = .ok ⟨⟨2024, 1, 5⟩, 843 / 2⟩ :=
  ⟨((C6_no_partial_render _ "10:00").1 "boom" [] rfl).1,
   ((C6_no_partial_render initState "now").2.2 2020 2025 "b"
      (.response 200 "2024,1,5,2024.01,421.5\n")
      (.response 200 "country,year,co2\nWorld,2021,34000\n")
      ⟨⟨2024, 1, 5⟩, 843 / 2⟩ [(2021, 34)] 2020 2025 "b"
      (by with_unfolding_all exact List.Mem.head _)).1⟩

/-- C7: the rendered budget-used value is the sum of the emissions values
(`0` for an empty series) and the rendered budget-remaining value is the
budget total minus that sum, negative exactly when the sum exceeds the
total. -/
theorem C7_budget_sum_and_remaining :
    ∀ (s : AppState) (snap : Co2Snapshot) (emissions : List (Int × Rat))
      (start_year end_year : Int) (budget_label : String),
    (render s snap emissions start_year end_year budget_label).cards.budget_used
        = some ((emissions.map Prod.snd).sum) ∧
    (emissions = [] →
      (render s snap emissions start_year end_year budget_label).cards.budget_used
        = some 0) ∧
    (render s snap emissions start_year end_year budget_label).cards.budget_remaining
        = some (budgetsGet budget_label - (emissions.map Prod.snd).sum) ∧
    (budgetsGet budget_label < (emissions.map Prod.snd).sum →
      ∃ rem, (render s snap emissions start_year end_year budget_label).cards.budget_remaining
          = some rem ∧ rem < 0) := by
  intro s snap emissions start_year end_year budget_label
  refine ⟨?_, ?_, ?_, ?_⟩
  · rw [render_cards, ite_sum_emissions]
  · intro he; subst he; rw [render_cards]; simp
  · rw [render_cards, ite_sum_emissions]
  · intro hover
    refine ⟨budgetsGet budget_label - (emissions.map Prod.snd).sum,
      by rw [render_cards, ite_sum_emissions], ?_⟩
    exact sub_neg.mpr hover

/-- Witness for C7: an empty series renders budget-used `0`, and a series
summing above the selected budget renders a negative remaining value. -/
theorem C7_budget_sum_and_remaining_witness :
    (render initState ⟨⟨2024, 1, 5⟩, 843 / 2⟩ [] 2020 2025
        "1.5°C budget (66% chance) ~420 GtCO₂").cards.budget_used = some 0 ∧
    (∃ rem,
      (render initState ⟨⟨2024, 1, 5⟩, 843 / 2⟩ [(2020, 300), (2021, 200)] 2020 2025
          "1.5°C budget (66% chance) ~420 GtCO₂").cards.budget_remaining
        = some rem ∧ rem < 0) :=
  ⟨(C7_budget_sum_and_remaining initState _ [] 2020 2025 _).2.1 rfl,
   (C7_budget_sum_and_remaining initState _ [(2020, 300), (2021, 200)] 2020 2025
      "1.5°C budget (66% chance) ~420 GtCO₂").2.2.2
     (by with_unfolding_all decide)⟩

/-- C8: the atmospheric-mass derivation is multiplication by the fixed
constant 7.80432 and the above-baseline derivation subtracts the fixed
280.0 ppm reference, both as computed and as rendered onto the cards. -/
theorem C8_fixed_conversions :
    ∀ (ppm : Rat) (s : AppState) (snap : Co2Snapshot) (emissions : List (Int × Rat))
      (start_year end_year : Int) (budget_label : String),
    gtco2_in_atmosphere_from_ppm ppm = ppm * 7.80432 ∧
    (render s snap emissions start_year end_year budget_label).cards.atmosphere
        = some (snap.ppm * 7.80432) ∧
    (render s snap emissions start_year end_year budget_label).cards.above_pre
        = some (snap.ppm - 280.0) := by
  intro ppm s snap emissions start_year end_year budget_label
  refine ⟨rfl, ?_, ?_⟩ <;>
    simp [render_cards, gtco2_in_atmosphere_from_ppm, PPM_TO_GTCO2_IN_ATMOSPHERE,
      PREINDUSTRIAL_PPM]

/-- C9: the budget total is looked up in the fixed table by label, and an
unrecognized label silently falls back to the value of the table's first
entry. -/
theorem C9_budget_label_fallback :
    (∀ budget_label v, List.lookup budget_label BUDGETS_GTCO2 = some v →
      budgetsGet budget_label = v) ∧
    (∀ budget_label, List.lookup budget_label BUDGETS_GTCO2 = none →
      ∃ first rest, BUDGETS_GTCO2 = first :: rest ∧
        budgetsGet budget_label = first.2) ∧
    budgetsGet "1.5°C budget (50% chance) ~580 GtCO₂" = 580 ∧
    budgetsGet "1.5°C budget (66% chance) ~420 GtCO₂" = 420 := by
  refine ⟨?_, ?_, ?_, ?_⟩
  · intro budget_label v h
    unfold budgetsGet
    rw [h]
  · intro budget_label h
    refine ⟨("1.5°C budget (50% chance) ~580 GtCO₂", 580.0),
      [("1.5°C budget (66% chance) ~420 GtCO₂", 420.0)], rfl, ?_⟩
    unfold budgetsGet
    rw [h]
    rfl
  · with_unfolding_all rfl
  · with_unfolding_all rfl

/-- Witness for C9: a label outside the table falls back to 580, the first
entry's value. -/
theorem C9_budget_label_fallback_witness :
    ∃ first rest, BUDGETS_GTCO2 = first :: rest ∧
      budgetsGet "no such budget" = first.2 :=
  C9_budget_label_fallback.2.1 "no such budget" (by with_unfolding_all rfl)

/-! ### Date-order lemmas and the NOAA loop characterization -/

theorem dateLeb_refl (a : PyDate) : a.leb a = true := by
  simp [PyDate.leb]

theorem dateLtb_leb {a b : PyDate} (h : a.ltb b = true) : a.leb b = true := by
  simp [PyDate.leb, h]

theorem dateLtb_false_leb {a b : PyDate} (h : a.ltb b = false) : b.leb a = true := by
  obtain ⟨y1, m1, d1⟩ := a; obtain ⟨y2, m2, d2⟩ := b
  simp only [PyDate.ltb, PyDate.leb, PyDate.mk.injEq, Bool.or_eq_true,
    Bool.and_eq_true, beq_iff_eq, decide_eq_true_eq, Bool.or_eq_false_iff,
    Bool.and_eq_false_iff, decide_eq_false_iff_not, beq_eq_false_iff_ne,
    ne_eq] at *
  omega

theorem dateLeb_trans {a b c : PyDate} (h1 : a.leb b = true) (h2 : b.leb c = true) :
    a.leb c = true := by
  obtain ⟨y1, m1, d1⟩ := a; obtain ⟨y2, m2, d2⟩ := b; obtain ⟨y3, m3, d3⟩ := c
  simp only [PyDate.ltb, PyDate.leb, PyDate.mk.injEq, Bool.or_eq_true,
    Bool.and_eq_true, beq_iff_eq, decide_eq_true_eq] at *
  omega

/-- `max(rows, key=...)` returns an element of the list that is
`≥` every element (the first such, on ties). -/
theorem pyMaxByDate_spec (first : PyDate × Rat) (rest : List (PyDate × Rat)) :
    (pyMaxByDate first rest = first ∨ pyMaxByDate first rest ∈ rest) ∧
    first.1.leb (pyMaxByDate first rest).1 = true ∧
    ∀ x ∈ rest, x.1.leb (pyMaxByDate first rest).1 = true := by
  induction rest generalizing first with
  | nil => exact ⟨Or.inl rfl, dateLeb_refl _, by simp⟩
  | cons x xs ih =>
    have hfold : pyMaxByDate first (x :: xs)
        = pyMaxByDate (if first.1.ltb x.1 then x else first) xs := rfl
    by_cases h : first.1.ltb x.1 = true
    · rw [hfold, if_pos h]
      obtain ⟨hmem, hbase, hall⟩ := ih x
      refine ⟨?_, ?_, ?_⟩
      · rcases hmem with h' | h' <;> simp [h']
      · exact dateLeb_trans (dateLtb_leb h) hbase
      · intro z hz
        rcases List.mem_cons.mp hz with h' | h'
        · rw [h']; exact hbase
        · exact hall z h'
    · rw [hfold, if_neg h]
      obtain ⟨hmem, hbase, hall⟩ := ih first
      refine ⟨?_, hbase, ?_⟩
      · rcases hmem with h' | h' <;> simp [h']
      · intro z hz
        rcases List.mem_cons.mp hz with h' | h'
        · rw [h']
          exact dateLeb_trans (dateLtb_false_leb (Bool.of_not_eq_true h)) hbase
        · exact hall z h'

/-- The `(year, month, day, avg)` of a surviving row as the stored
`(datetime, avg)` pair. -/
def noaaRowEntry (r : Int × Int × Int × Rat) : PyDate × Rat :=
  (⟨r.1, r.2.1, r.2.2.1⟩, r.2.2.2)

/-- When every surviving row carries a valid calendar date, the NOAA loop
collects exactly the surviving rows, in order. -/
theorem noaaFold_ok (lines : List String) (acc : List (PyDate × Rat))
    (hvalid : ∀ r ∈ lines.filterMap parseNoaaLine, validDate r.1 r.2.1 r.2.2.1 = true) :
    lines.foldl noaaStep (.ok acc)
      = .ok (acc ++ (lines.filterMap parseNoaaLine).map noaaRowEntry) := by
  induction lines generalizing acc with
  | nil => simp
  | cons l ls ih =>
    rw [List.foldl_cons]
    cases hp : parseNoaaLine l with
    | none =>
      have hfm : (l :: ls).filterMap parseNoaaLine = ls.filterMap parseNoaaLine :=
        List.filterMap_cons_none hp
      have hstep : noaaStep (.ok acc) l = .ok acc := by simp [noaaStep, hp]
      rw [hstep, ih acc (fun r hr => hvalid r (by rw [hfm]; exact hr)), hfm]
    | some r =>
      obtain ⟨y, m, d, avg⟩ := r
      have hfm : (l :: ls).filterMap parseNoaaLine
          = (y, m, d, avg) :: ls.filterMap parseNoaaLine :=
        List.filterMap_cons_some hp
      have hv : validDate y m d = true :=
        hvalid (y, m, d, avg) (by rw [hfm]; exact List.mem_cons_self _ _)
      have hstep : noaaStep (.ok acc) l = .ok (acc ++ [(⟨y, m, d⟩, avg)]) := by
        simp [noaaStep, hp, hv]
      rw [hstep]
      rw [ih (acc ++ [(PyDate.mk y m d, avg)])
          (fun r hr => hvalid r (by rw [hfm]; exact List.mem_cons_of_mem _ hr))]
      rw [hfm]
      simp [noaaRowEntry]

/-- C3 (amended: restricted to inputs whose surviving rows all carry valid
calendar dates — an invalid date aborts the whole fetch, see the
counterexample): blank and `#` lines are skipped, surviving rows have a
positive daily mean, the fetcher fails exactly when no row survives (and
then with the no-valid-rows error), and a successful fetch returns a
surviving record whose date is maximal. -/
theorem C3_concentration_fetcher_filters_and_max :
    (∀ line : String,
      pyStripChars line.data = [] ∨ (pyStripChars line.data).head? = some '#' →
      parseNoaaLine line = none) ∧
    (∀ (line : String) (y m d : Int) (avg : Rat),
      parseNoaaLine line = some (y, m, d, avg) → 0 < avg) ∧
    (∀ text : String,
      (∀ r ∈ (pySplitlines text).filterMap parseNoaaLine,
          validDate r.1 r.2.1 r.2.2.1 = true) →
      ((∃ e, fetch_latest_noaa_from_text text = .error e) ↔
        (pySplitlines text).filterMap parseNoaaLine = []) ∧
      (fetch_latest_noaa_from_text text = .error (.runtimeError NOAA_EMPTY_MSG) ↔
        (pySplitlines text).filterMap parseNoaaLine = []) ∧
      (∀ snap, fetch_latest_noaa_from_text text = .ok snap →
        (snap.date, snap.ppm)
            ∈ ((pySplitlines text).filterMap parseNoaaLine).map noaaRowEntry ∧
        ∀ r ∈ ((pySplitlines text).filterMap parseNoaaLine).map noaaRowEntry,
          r.1.leb snap.date = true)) := by
  refine ⟨?_, ?_, ?_⟩
  · intro line h
    unfold parseNoaaLine
    rcases h with h | h
    · simp [h]
    · cases hl : pyStripChars line.data with
      | nil => simp
      | cons c cs =>
        rw [hl] at h
        simp only [List.head?] at h
        cases h
        simp
  · intro line y m d avg h
    unfold parseNoaaLine at h
    dsimp only at h
    split at h
    · cases h
    · split at h
      · cases h
      · split at h
        · split at h
          · split at h
            · cases h
            · next havg =>
              simp only [Option.some.injEq, Prod.mk.injEq] at h
              obtain ⟨-, -, -, h4⟩ := h
              subst h4
              exact lt_of_not_le havg
          · cases h
        · cases h
  · intro text hvalid
    have hrows : noaaRows (pySplitlines text)
        = .ok (((pySplitlines text).filterMap parseNoaaLine).map noaaRowEntry) := by
      unfold noaaRows
      simpa using noaaFold_ok (pySplitlines text) [] hvalid
    cases hL : (pySplitlines text).filterMap parseNoaaLine with
    | nil =>
      have hfetch : fetch_latest_noaa_from_text text
          = .error (.runtimeError NOAA_EMPTY_MSG) := by
        unfold fetch_latest_noaa_from_text
        rw [hrows, hL]
        rfl
      refine ⟨⟨fun _ => rfl, fun _ => ⟨_, hfetch⟩⟩, ⟨fun _ => rfl, fun _ => hfetch⟩, ?_⟩
      intro snap hsnap
      rw [hfetch] at hsnap
      cases hsnap
    | cons r rs =>
      have hfetch : fetch_latest_noaa_from_text text
          = .ok ⟨(pyMaxByDate (noaaRowEntry r) (rs.map noaaRowEntry)).1,
                 (pyMaxByDate (noaaRowEntry r) (rs.map noaaRowEntry)).2⟩ := by
        unfold fetch_latest_noaa_from_text
        rw [hrows, hL]
        rfl
      refine ⟨?_, ?_, ?_⟩
      · constructor
        · rintro ⟨e, he⟩
          rw [hfetch] at he
          cases he
        · intro hcon; cases hcon
      · constructor
        · intro he
          rw [hfetch] at he
          cases he
        · intro hcon; cases hcon
      · intro snap hsnap
        rw [hfetch] at hsnap
        obtain ⟨hm, hfirst, hall⟩ := pyMaxByDate_spec (noaaRowEntry r) (rs.map noaaRowEntry)
        cases hsnap
        constructor
        · simp only [List.map_cons]
          rcases hm with h' | h' <;> simp [h']
        · intro x hx
          simp only [List.map_cons, List.mem_cons] at hx
          rcases hx with h' | h'
          · rw [h']; exact hfirst
          · exact hall x h'

def noaaGoodText : String := "2024,1,4,2024.01,421.5\n2024,1,5,2024.02,420.8\n"

/-- Witness for C3: on a concrete two-row input the fetch succeeds and
returns the row with the larger date. -/
theorem C3_concentration_fetcher_filters_and_max_witness :
    ((⟨2024, 1, 5⟩ : PyDate), (2104 / 5 : Rat))
        ∈ ((pySplitlines noaaGoodText).filterMap parseNoaaLine).map noaaRowEntry ∧
    ∀ r ∈ ((pySplitlines noaaGoodText).filterMap parseNoaaLine).map noaaRowEntry,
      r.1.leb (⟨2024, 1, 5⟩ : PyDate) = true := by
  have hlist : (pySplitlines noaaGoodText).filterMap parseNoaaLine
      = [(2024, 1, 4, 843 / 2), (2024, 1, 5, 2104 / 5)] := by
    with_unfolding_all rfl
  have hvalid : ∀ r ∈ (pySplitlines noaaGoodText).filterMap parseNoaaLine,
      validDate r.1 r.2.1 r.2.2.1 = true := by
    rw [hlist]; decide
  have h := (C3_concentration_fetcher_filters_and_max.2.2 noaaGoodText hvalid).2.2
    ⟨⟨2024, 1, 5⟩, 2104 / 5⟩ (by with_unfolding_all rfl)
  exact h

def noaaBadDateText : String := "2024,13,1,2024.04,421.0\n"

/-- Counterexample for C3 as stated: on this input exactly one row survives
the numeric-parse and positivity filters (month field 13), yet the fetcher
does not return it — the whole fetch fails with the uncaught
`datetime` `ValueError`, not with the zero-rows error. -/
theorem C3_counterexample_invalid_date :
    (pySplitlines noaaBadDateText).filterMap parseNoaaLine
      = [(2024, 13, 1, 421)] ∧
    fetch_latest_noaa_from_text noaaBadDateText = .error (.valueError 2024 13 1) :=
  ⟨by with_unfolding_all rfl, by with_unfolding_all rfl⟩

def noaaFeb30Text : String := "# header\n2023,2,30,2023.16,420.5\n2023,2,27,2023.15,419.5\n"

/-- C10: a row whose fields parse and whose mean is positive but whose
(year, month, day) is no valid calendar date (here February 30) is not
discarded: the `datetime` call raises outside the numeric-parse handler and
the whole fetch fails, even though another valid row is present. -/
theorem C10_invalid_date_aborts_whole_fetch :
    parseNoaaLine "2023,2,30,2023.16,420.5" = some (2023, 2, 30, 841 / 2) ∧
    validDate 2023 2 30 = false ∧
    fetch_latest_noaa_from_text noaaFeb30Text = .error (.valueError 2023 2 30) ∧
    fetch_latest_noaa_daily_ppm (.response 200 noaaFeb30Text)
      = .error (.valueError 2023 2 30) :=
  ⟨by with_unfolding_all rfl, by decide, by with_unfolding_all rfl,
   by with_unfolding_all rfl⟩

/-! ### Sort lemmas for the emissions series -/

instance : IsTotal (Int × Rat) leYear := ⟨fun a b => Int.le_total a.1 b.1⟩

instance : IsTrans (Int × Rat) leYear := ⟨fun _ _ _ h1 h2 => le_trans h1 h2⟩

/-- Inserting into the sort keeps equal-key elements in place: the inserted
element lands before every equal-key element already present, and the
relative order of the others is unchanged. -/
theorem filter_orderedInsert_year (y : Int) (a : Int × Rat) (l : List (Int × Rat)) :
    (l.orderedInsert leYear a).filter (fun x => x.1 == y)
      = if a.1 == y then a :: l.filter (fun x => x.1 == y)
        else l.filter (fun x => x.1 == y) := by
  induction l with
  | nil =>
    simp only [List.orderedInsert, List.filter_cons, List.filter_nil]
  | cons b l ih =>
    by_cases hab : leYear a b
    · rw [List.orderedInsert_of_le _ _ hab]
      by_cases hay : a.1 == y <;> simp [List.filter_cons, hay]
    · have hoi : (b :: l).orderedInsert leYear a = b :: l.orderedInsert leYear a := by
        simp [List.orderedInsert, hab]
      rw [hoi]
      have hba : b.1 < a.1 := lt_of_not_le hab
      by_cases hby : b.1 == y
      · have hby' : b.1 = y := by simpa using hby
        have hay : (a.1 == y) = false := by
          simp only [beq_eq_false_iff_ne, ne_eq]
          omega
        simp [List.filter_cons, hby, ih, hay]
      · simp [List.filter_cons, hby, ih]

/-- Python's stable sort: filtering the sorted list to one year gives the
same sequence as filtering the unsorted list. -/
theorem filter_insertionSort_year (y : Int) (l : List (Int × Rat)) :
    (l.insertionSort leYear).filter (fun x => x.1 == y)
      = l.filter (fun x => x.1 == y) := by
  induction l with
  | nil => rfl
  | cons a l ih =>
    rw [List.insertionSort, filter_orderedInsert_year, ih, List.filter_cons]

/-- The row filter of `fetch_world_emissions_owid`, characterized by the
source fields. -/
theorem parseOwidRow_eq_some_iff (start_year end_year y : Int) (e : Rat) (row : OwidRow) :
    parseOwidRow start_year end_year row = some (y, e) ↔
      (rowGet row "country" = some "World" ∧
       (∃ ys, rowGet row "year" = some ys ∧ pyIntChars ys.data = some y) ∧
       start_year ≤ y ∧ y ≤ end_year ∧
       (∃ cs mt, rowGet row "co2" = some cs ∧ cs ≠ "" ∧
         pyFloatChars cs.data = some mt ∧ e = mt / 1000)) := by
  unfold parseOwidRow
  constructor
  · intro h
    split at h
    · cases h
    · next hcountry =>
      rw [not_ne_iff] at hcountry
      split at h
      · cases h
      · next year hbind =>
        obtain ⟨ys, hys, hint⟩ := Option.bind_eq_some.mp hbind
        split at h
        · cases h
        · next hrange =>
          split at h
          · cases h
          · next cs hcs =>
            split at h
            · cases h
            · next hne =>
              split at h
              · cases h
              · next mt hmt =>
                simp only [Option.some.injEq, Prod.mk.injEq] at h
                obtain ⟨hy, he⟩ := h
                subst hy
                exact ⟨hcountry, ⟨ys, hys, hint⟩, by omega, by omega,
                  ⟨cs, mt, hcs, hne, hmt, he.symm⟩⟩
  · rintro ⟨hcountry, ⟨ys, hys, hint⟩, h1, h2, ⟨cs, mt, hcs, hne, hmt, he⟩⟩
    rw [if_neg (by rw [not_ne_iff]; exact hcountry)]
    rw [hys, Option.some_bind, hint]
    dsimp only
    rw [if_neg (by omega), hcs]
    dsimp only
    rw [if_neg hne, hmt]
    dsimp only
    rw [he]

/-- C4: the emissions series consists exactly of the converted surviving
rows (entity `World`, parseable year in range, non-empty parseable
emissions, value divided by 1000), sorted ascending by year; the sort is
stable (equal-year rows keep their original order) and is strictly
ascending whenever the surviving years are distinct. -/
theorem C4_emissions_filter_convert_sort :
    ∀ (rows : List OwidRow) (start_year end_year : Int),
    (fetch_world_emissions_rows rows start_year end_year).Perm
        (owidFiltered rows start_year end_year) ∧
    (∀ (y : Int) (e : Rat),
      (y, e) ∈ fetch_world_emissions_rows rows start_year end_year ↔
        ∃ row ∈ rows,
          rowGet row "country" = some "World" ∧
          (∃ ys, rowGet row "year" = some ys ∧ pyIntChars ys.data = some y) ∧
          start_year ≤ y ∧ y ≤ end_year ∧
          (∃ cs mt, rowGet row "co2" = some cs ∧ cs ≠ "" ∧
            pyFloatChars cs.data = some mt ∧ e = mt / 1000)) ∧
    (fetch_world_emissions_rows rows start_year end_year).Pairwise
        (fun a b => a.1 ≤ b.1) ∧
    (∀ y : Int,
      (fetch_world_emissions_rows rows start_year end_year).filter (fun x => x.1 == y)
        = (owidFiltered rows start_year end_year).filter (fun x => x.1 == y)) ∧
    ((owidFiltered rows start_year end_year).Pairwise (fun a b => a.1 ≠ b.1) →
      (fetch_world_emissions_rows rows start_year end_year).Pairwise
        (fun a b => a.1 < b.1)) := by
  intro rows start_year end_year
  have hperm : (fetch_world_emissions_rows rows start_year end_year).Perm
      (owidFiltered rows start_year end_year) :=
    List.perm_insertionSort leYear _
  have hsorted : (fetch_world_emissions_rows rows start_year end_year).Pairwise leYear :=
    List.sorted_insertionSort leYear _
  refine ⟨hperm, ?_, hsorted, fun y => filter_insertionSort_year y _, ?_⟩
  · intro y e
    rw [hperm.mem_iff]
    unfold owidFiltered
    rw [List.mem_filterMap]
    constructor
    · rintro ⟨row, hrow, hparse⟩
      exact ⟨row, hrow, (parseOwidRow_eq_some_iff _ _ _ _ _).mp hparse⟩
    · rintro ⟨row, hrow, hfields⟩
      exact ⟨row, hrow, (parseOwidRow_eq_some_iff _ _ _ _ _).mpr hfields⟩
  · intro hdist
    have hdist' : (fetch_world_emissions_rows rows start_year end_year).Pairwise
        (fun a b => a.1 ≠ b.1) :=
      (hperm.pairwise_iff (fun h => h ∘ Eq.symm)).mpr hdist
    exact (List.pairwise_and_iff.mpr ⟨hsorted, hdist'⟩).imp
      (fun h => lt_of_le_of_ne h.1 h.2)

def owidRows0 : List OwidRow :=
  [[("country", "World"), ("year", "2021"), ("co2", "2000")],
   [("country", "World"), ("year", "2020"), ("co2", "1000")]]

/-- Witness for C4: two out-of-order `World` rows with distinct years come
back strictly sorted, and membership is characterized by the source
fields. -/
theorem C4_emissions_filter_convert_sort_witness :
    (fetch_world_emissions_rows owidRows0 2020 2024).Pairwise (fun a b => a.1 < b.1) ∧
    ((2021 : Int), (2 : Rat)) ∈ fetch_world_emissions_rows owidRows0 2020 2024 := by
  have h := C4_emissions_filter_convert_sort owidRows0 2020 2024
  constructor
  · apply h.2.2.2.2
    have hf : owidFiltered owidRows0 2020 2024 = [(2021, 2), (2020, 1)] := by
      with_unfolding_all rfl
    rw [hf]
    decide
  · refine (h.2.1 2021 2).mpr
      ⟨[("country", "World"), ("year", "2021"), ("co2", "2000")],
       by decide, rfl, ⟨"2021", rfl, by decide⟩, by decide, by decide,
       ⟨"2000", 2000, rfl, by decide, by with_unfolding_all rfl,
        by with_unfolding_all rfl⟩⟩

/-- C5 (amended: only the concentration fetcher turns an empty filter
result into an error; the emissions fetcher returns the empty series):
both fetchers propagate transport failures and 4xx/5xx statuses as
network-kind errors; on a success status the concentration fetcher raises
the no-valid-rows error when nothing survives, while the emissions fetcher
always returns a value. -/
theorem C5_error_kinds :
    ∀ (status : Nat) (text : String) (start_year end_year : Int),
    fetch_latest_noaa_daily_ppm .failure = .error .requestError ∧
    fetch_world_emissions_owid .failure start_year end_year = .error .requestError ∧
    (400 ≤ status → status < 600 →
      fetch_latest_noaa_daily_ppm (.response status text) = .error (.httpError status) ∧
      fetch_world_emissions_owid (.response status text) start_year end_year
        = .error (.httpError status)) ∧
    (status < 400 →
      ((pySplitlines text).filterMap parseNoaaLine = [] →
        fetch_latest_noaa_daily_ppm (.response status text)
          = .error (.runtimeError NOAA_EMPTY_MSG)) ∧
      ∃ l, fetch_world_emissions_owid (.response status text) start_year end_year
          = .ok l) := by
  intro status text start_year end_year
  refine ⟨rfl, rfl, ?_, ?_⟩
  · intro h4 h6
    have hhttp : _http_get_text (.response status text) = .error (.httpError status) := by
      show (if 400 ≤ status ∧ status < 600 then
          (.error (.httpError status) : Except PyErr String) else .ok text)
        = .error (.httpError status)
      rw [if_pos ⟨h4, h6⟩]
    constructor
    · unfold fetch_latest_noaa_daily_ppm
      rw [hhttp]
    · unfold fetch_world_emissions_owid
      rw [hhttp]
  · intro hlt
    have hok : _http_get_text (.response status text) = .ok text := by
      show (if 400 ≤ status ∧ status < 600 then
          (.error (.httpError status) : Except PyErr String) else .ok text) = .ok text
      rw [if_neg (by omega)]
    constructor
    · intro hempty
      have hrows : noaaRows (pySplitlines text) = .ok [] := by
        unfold noaaRows
        have h := noaaFold_ok (pySplitlines text) []
          (fun r hr => absurd hr (by rw [hempty]; exact List.not_mem_nil r))
        rw [h, hempty]
        rfl
      unfold fetch_latest_noaa_daily_ppm
      rw [hok]
      show fetch_latest_noaa_from_text text = .error (.runtimeError NOAA_EMPTY_MSG)
      unfold fetch_latest_noaa_from_text
      rw [hrows]
    · refine ⟨fetch_world_emissions_rows (csvDictReader text) start_year end_year, ?_⟩
      unfold fetch_world_emissions_owid
      rw [hok]

def owidNoUsableText : String := "country,year,co2\nFrance,2020,300\nWorld,1980,100\n"

/-- Counterexample for C5 as stated: a response body with zero usable
emissions records (wrong entity, out-of-range year) does not make the
emissions fetcher fail — it returns the empty series. -/
theorem C5_counterexample_empty_series_is_ok :
    owidFiltered (csvDictReader owidNoUsableText) 2020 2024 = [] ∧
    fetch_world_emissions_owid (.response 200 owidNoUsableText) 2020 2024 = .ok [] :=
  ⟨by with_unfolding_all rfl, by with_unfolding_all rfl⟩

/-- Witness for C5 at concrete inputs: a 503 becomes a network error, an
empty concentration body becomes the no-valid-rows error, and a
records-free emissions body still yields a value. -/
theorem C5_error_kinds_witness :
    fetch_latest_noaa_daily_ppm (.response 503 "x") = .error (.httpError 503) ∧
    fetch_latest_noaa_daily_ppm (.response 200 "# nothing\n")
      = .error (.runtimeError NOAA_EMPTY_MSG) ∧
    ∃ l, fetch_world_emissions_owid (.response 200 "country,year,co2\n") 2020 2024
        = .ok l :=
  ⟨((C5_error_kinds 503 "x" 2020 2024).2.2.1 (by decide) (by decide)).1,
   ((C5_error_kinds 200 "# nothing\n" 2020 2024).2.2.2 (by decide)).1
     (by with_unfolding_all rfl),
   ((C5_error_kinds 200 "country,year,co2\n" 2020 2024).2.2.2 (by decide)).2⟩

end CO2Monitor
